import Mathlib

/- Verification development for the agent-book repository.

   This file shallowly embeds the interaction core of the repository
   (memory.py, llm.py, agent.py, tools.py) as executable Lean definitions
   and proves the stated properties of the code against them.

   Python values appearing in loosely-typed positions (JSON documents,
   tool inputs, dict fields) are modelled by the inductive type `PyVal`.
   Python dictionaries are modelled as insertion-ordered association
   lists with overwrite-in-place update, matching CPython semantics.
   Operations that can raise in Python return `Except PyExn`. -/

namespace AgentBook

/-- Model of a Python/JSON value as used by the repository: None, bools,
ints, strings, lists and string-keyed dicts. -/
inductive PyVal where
  | none : PyVal
  | bool (b : Bool) : PyVal
  | int (n : Int) : PyVal
  | str (s : String) : PyVal
  | list (xs : List PyVal) : PyVal
  | dict (entries : List (String × PyVal)) : PyVal
deriving Repr

/-- Python exceptions that the embedded code can raise. -/
inductive PyExn where
  | keyError (k : String) : PyExn
  | valueError (msg : String) : PyExn
  | typeError (msg : String) : PyExn
  | attributeError (msg : String) : PyExn
  | httpStatusError (status : Nat) (text : String) : PyExn
  | httpTransportError (msg : String) : PyExn
deriving Repr, DecidableEq

/-- Lookup in an association-list dict: `d.get(k)` returning an Option. -/
def dictGet (d : List (String × PyVal)) (k : String) : Option PyVal :=
  match d with
  | [] => Option.none
  | (k', v) :: rest => if k' = k then Option.some v else dictGet rest k

/-- `d.get(k, default)`. -/
def dictGetD (d : List (String × PyVal)) (k : String) (default : PyVal) : PyVal :=
  (dictGet d k).getD default

/-- Key membership test `k in d` for a Python dict. -/
def dictHas (d : List (String × PyVal)) (k : String) : Bool :=
  (dictGet d k).isSome

/-- `d[k] = v` on a Python dict: overwrite in place if the key exists
(keeping its position, per CPython insertion-order semantics), else
append a new entry. -/
def dictSet (d : List (String × PyVal)) (k : String) (v : PyVal) :
    List (String × PyVal) :=
  match d with
  | [] => [(k, v)]
  | (k', v') :: rest =>
    if k' = k then (k', v) :: rest else (k', v') :: dictSet rest k v

/-- Python truthiness of a value (used by `if x:` and `x or y`). -/
def PyVal.truthy : PyVal → Bool
  | .none => false
  | .bool b => b
  | .int n => decide (n ≠ 0)
  | .str s => decide (s ≠ "")
  | .list xs => !xs.isEmpty
  | .dict d => !d.isEmpty

/-- Python `x or y`: `x` if truthy, else `y`. -/
def pyOr (x y : PyVal) : PyVal := if x.truthy then x else y

/-- Render an Int the way Python's str() does. -/
def intStr (n : Int) : String := toString n

/-- Python `str(x)` for the values the code interpolates into strings.
Container rendering is simplified (the repository only ever interpolates
scalars into f-strings). -/
def pyStr : PyVal → String
  | .none => "None"
  | .bool b => if b then "True" else "False"
  | .int n => intStr n
  | .str s => s
  | .list _ => "[...]"
  | .dict _ => "{...}"

/-- Python `int(s)` on a string: optional surrounding whitespace, an
optional sign, then a nonempty digit sequence (single underscores
between digits are accepted, as in CPython). Returns `Option.none` where
CPython raises ValueError. -/
def intOfDigits : List Char → Option Nat → Option Nat
  | [], acc => acc
  | c :: rest, acc =>
    if c.isDigit then
      intOfDigits rest (Option.some ((acc.getD 0) * 10 + (c.toNat - 48)))
    else if c = '_' then
      match acc, rest with
      | Option.some _, d :: _ => if d.isDigit then intOfDigits rest acc else Option.none
      | _, _ => Option.none
    else Option.none

/-- Python `int(s)` for strings; see `intOfDigits`. Surrounding
whitespace is stripped first, as `int()` does. -/
def pyIntOfString (s : String) : Option Int :=
  let t := ((s.data.dropWhile Char.isWhitespace).reverse.dropWhile
    Char.isWhitespace).reverse
  match t with
  | '-' :: rest => (intOfDigits rest Option.none).map (fun n => -(n : Int))
  | '+' :: rest => (intOfDigits rest Option.none).map (fun n => (n : Int))
  | cs => (intOfDigits cs Option.none).map (fun n => (n : Int))

/-- Python `int(x)` on an arbitrary value: ints pass through, bools map
to 0/1, numeric strings parse (else ValueError), anything else is a
TypeError. -/
def pyToInt : PyVal → Except PyExn Int
  | .int n => .ok n
  | .bool b => .ok (if b then 1 else 0)
  | .str s =>
    match pyIntOfString s with
    | Option.some n => .ok n
    | Option.none => .error (.valueError ("invalid literal for int: " ++ s))
  | v => .error (.typeError ("int argument must be a number or string, not " ++ pyStr v))

/-- Python string slicing `s[:n]` (by code points). -/
def strTake (s : String) (n : Nat) : String := ⟨s.data.take n⟩

/-- Python list tail slicing `l[-n:]`. -/
def takeLast {α : Type} (l : List α) (n : Nat) : List α := l.drop (l.length - n)

mutual

/-- Python `==` between modelled values: structural, except that bools
compare equal to the corresponding ints (True == 1, False == 0). -/
def pyEq : PyVal → PyVal → Bool
  | .bool b, .int n => decide ((if b then (1 : Int) else 0) = n)
  | .int n, .bool b => decide ((if b then (1 : Int) else 0) = n)
  | .bool a, .bool b => decide (a = b)
  | .int a, .int b => decide (a = b)
  | .str a, .str b => decide (a = b)
  | .none, .none => true
  | .list a, .list b => pyEqList a b
  | .dict a, .dict b => pyEqDict a b
  | _, _ => false

/-- Elementwise `==` on lists. -/
def pyEqList : List PyVal → List PyVal → Bool
  | [], [] => true
  | a :: as', b :: bs => pyEq a b && pyEqList as' bs
  | _, _ => false

/-- `==` on dict entry lists (order-sensitive approximation; the code
never compares dicts). -/
def pyEqDict : List (String × PyVal) → List (String × PyVal) → Bool
  | [], [] => true
  | (ka, va) :: as', (kb, vb) :: bs => decide (ka = kb) && pyEq va vb && pyEqDict as' bs
  | _, _ => false

end

/-- Python `x in container` for lists (elementwise ==), strings
(substring), dicts (key membership); TypeError otherwise. -/
def pyIn (x : PyVal) (container : PyVal) : Except PyExn Bool :=
  match container with
  | .list xs => .ok (xs.any (pyEq x))
  | .str s =>
    match x with
    | .str sub => .ok ((s.splitOn sub).length > 1 || sub = "")
    | _ => .error (.typeError "in <string> requires string as left operand")
  | .dict d =>
    match x with
    | .str k => .ok (dictHas d k)
    | _ => .ok false
  | _ => .error (.typeError "argument is not iterable")

/-- Python iteration `for x in v`: lists yield elements, strings yield
one-character strings, dicts yield their keys; TypeError otherwise. -/
def pyIter (v : PyVal) : Except PyExn (List PyVal) :=
  match v with
  | .list xs => .ok xs
  | .str s => .ok (s.data.map (fun c => .str (String.singleton c)))
  | .dict d => .ok (d.map (fun e => .str e.1))
  | _ => .error (.typeError "object is not iterable")

/-- `d.get(k, default)` on an arbitrary value: AttributeError unless the
value is a dict (mirrors calling `.get` on a non-dict). -/
def pyDictGetD (v : PyVal) (k : String) (default : PyVal) : Except PyExn PyVal :=
  match v with
  | .dict d => .ok (dictGetD d k default)
  | _ => .error (.attributeError ("object has no attribute get: " ++ pyStr v))

/-- `v[k]` on an arbitrary value: KeyError when the key is missing,
TypeError when the value is not a dict. -/
def pyDictGetItem (v : PyVal) (k : String) : Except PyExn PyVal :=
  match v with
  | .dict d =>
    match dictGet d k with
    | Option.some x => .ok x
    | Option.none => .error (.keyError k)
  | _ => .error (.typeError "object is not subscriptable")

/-- `v[k] = x` on an arbitrary value: TypeError unless it is a dict. -/
def pyDictSetItem (v : PyVal) (k : String) (x : PyVal) : Except PyExn PyVal :=
  match v with
  | .dict d => .ok (.dict (dictSet d k x))
  | _ => .error (.typeError "object does not support item assignment")

/-- `v.append(x)`: AttributeError unless the value is a list. -/
def pyListAppend (v : PyVal) (x : PyVal) : Except PyExn PyVal :=
  match v with
  | .list xs => .ok (.list (xs ++ [x]))
  | _ => .error (.attributeError "object has no attribute append")

/-- `v[-n:]` tail slicing: lists and strings only. -/
def pyTakeLast (v : PyVal) (n : Nat) : Except PyExn PyVal :=
  match v with
  | .list xs => .ok (.list (takeLast xs n))
  | .str s => .ok (.str ⟨takeLast s.data n⟩)
  | _ => .error (.typeError "object is not subscriptable")

/-- `v[:n]` head slicing: lists and strings only. -/
def pySlice (v : PyVal) (n : Nat) : Except PyExn PyVal :=
  match v with
  | .list xs => .ok (.list (xs.take n))
  | .str s => .ok (.str (strTake s n))
  | _ => .error (.typeError "object is not subscriptable")

/-- `v + n` for the `+= 1` pattern: ints and bools only. -/
def pyAddInt (v : PyVal) (n : Int) : Except PyExn PyVal :=
  match v with
  | .int m => .ok (.int (m + n))
  | .bool b => .ok (.int ((if b then 1 else 0) + n))
  | _ => .error (.typeError "unsupported operand type for +")

/-- Python `a - b` on numbers (ints/bools); TypeError otherwise. -/
def pySub (a b : PyVal) : Except PyExn PyVal :=
  match a, b with
  | .int x, .int y => .ok (.int (x - y))
  | .int x, .bool y => .ok (.int (x - (if y then 1 else 0)))
  | .bool x, .int y => .ok (.int ((if x then 1 else 0) - y))
  | .bool x, .bool y => .ok (.int ((if x then 1 else 0) - (if y then 1 else 0)))
  | _, _ => .error (.typeError "unsupported operand type for -")

/-- Python `a > n` against an int literal; TypeError for non-numbers. -/
def pyGtInt (a : PyVal) (n : Int) : Except PyExn Bool :=
  match a with
  | .int x => .ok (decide (x > n))
  | .bool x => .ok (decide ((if x then (1 : Int) else 0) > n))
  | _ => .error (.typeError "comparison not supported between instances")

/-- Iterate a value and require every element to be a string (the
repository only ever iterates lists of bot names / topic strings here). -/
def asStrList (v : PyVal) : Except PyExn (List String) := do
  let xs ← pyIter v
  xs.mapM (fun x =>
    match x with
    | .str s => Except.ok s
    | _ => Except.error (.typeError "expected str element"))

/-- Update-in-place on an int-keyed dict (posts_read / posts_replied). -/
def dictSetInt (d : List (Int × PyVal)) (k : Int) (v : PyVal) :
    List (Int × PyVal) :=
  match d with
  | [] => [(k, v)]
  | (k', v') :: rest =>
    if k' = k then (k', v) :: rest else (k', v') :: dictSetInt rest k v

/-- Update-in-place on a dict with arbitrary Python keys, compared with
Python `==` (votes_cast). -/
def dictSetPy (d : List (PyVal × PyVal)) (k : PyVal) (v : PyVal) :
    List (PyVal × PyVal) :=
  match d with
  | [] => [(k, v)]
  | (k', v') :: rest =>
    if pyEq k' k then (k', v) :: rest else (k', v') :: dictSetPy rest k v

/- ---------------------------------------------------------------------
   memory.py: MemoryStore
   --------------------------------------------------------------------- -/

/-- `MAX_CYCLE_SUMMARIES` from memory.py. -/
def MAX_CYCLE_SUMMARIES : Nat := 50

/-- `MAX_BOT_NOTES` from memory.py. -/
def MAX_BOT_NOTES : Nat := 5

/-- The `MemoryStore` dataclass from memory.py. Keys of `posts_read` /
`posts_replied` are ints (the code converts with `int(...)` before
inserting); the dynamically shaped fields (`posts_created` entries, vote
values, bot records, cycle summaries, `cycle_count` as loaded from disk)
are kept as `PyVal`. -/
structure MemoryStore where
  posts_read : List (Int × PyVal) := []
  posts_replied : List (Int × PyVal) := []
  posts_created : List PyVal := []
  votes_cast : List (PyVal × PyVal) := []
  bots_interacted : List (String × PyVal) := []
  cycle_summaries : List PyVal := []
  cycle_count : PyVal := .int 0
deriving Repr

/-- The fresh relationship record `_update_bot` creates for an unseen
bot name. -/
def freshBotRecord (now : String) : PyVal :=
  .dict [("first_seen", .str now), ("last_seen", .str now),
         ("interaction_count", .int 0), ("topics_discussed", .list []),
         ("notes", .list [])]

/-- The `for t in topics` loop inside `_update_bot`. -/
def topicsLoop (bot : PyVal) : List String → Except PyExn PyVal
  | [] => pure bot
  | t :: rest => do
    let bot' ←
      if t = "" then pure bot
      else do
        let td ← pyDictGetItem bot "topics_discussed"
        let already ← pyIn (.str t) td
        if already then pure bot
        else do
          let td' ← pyListAppend td (.str t)
          pyDictSetItem bot "topics_discussed" td'
    topicsLoop bot' rest

/-- The body of `MemoryStore._update_bot` acting on the
`bots_interacted` mapping alone (mutation of the aliased bot dict is
modelled by writing the updated dict back). -/
def updateBotValue (botsIn : List (String × PyVal)) (name : String)
    (topics : List String) (note : Option String) (now : String) :
    Except PyExn (List (String × PyVal)) := do
  let bots :=
    if dictHas botsIn name then botsIn
    else botsIn ++ [(name, freshBotRecord now)]
  let bot := (dictGet bots name).getD PyVal.none
  let bot ← pyDictSetItem bot "last_seen" (.str now)
  let c ← pyDictGetItem bot "interaction_count"
  let c' ← pyAddInt c 1
  let bot ← pyDictSetItem bot "interaction_count" c'
  let bot ← topicsLoop bot topics
  let bot ←
    match note with
    | Option.none => pure bot
    | Option.some nt => do
      let notes ← pyDictGetItem bot "notes"
      let notes ← pyListAppend notes (.str nt)
      let bot ← pyDictSetItem bot "notes" notes
      let notes2 ← pyDictGetItem bot "notes"
      let sliced ← pyTakeLast notes2 MAX_BOT_NOTES
      pyDictSetItem bot "notes" sliced
  pure (dictSet bots name bot)

/-- `MemoryStore._update_bot`: `if not name: return`, else rewrite the
`bots_interacted` mapping; no other field is touched. -/
def MemoryStore.update_bot (m : MemoryStore) (name : String)
    (topics : List String) (note : Option String) (now : String) :
    Except PyExn MemoryStore :=
  if name = "" then pure m
  else do
    let bots ← updateBotValue m.bots_interacted name topics note now
    pure { m with bots_interacted := bots }

/-- Sequential `for bot_name in details.get("bots_seen", [])` loop
calling `_update_bot`. -/
def updateBotsLoop (m : MemoryStore) (names : List String)
    (topics : List String) (note : Option String) (now : String) :
    Except PyExn MemoryStore :=
  match names with
  | [] => pure m
  | n :: rest => do
    let m' ← m.update_bot n topics note now
    updateBotsLoop m' rest topics note now

/-- The `if post_id is not None: self.posts_read[int(post_id)] = now`
step of the read_post branch of `record_action`. -/
def readPostTarget (m : MemoryStore) (post_id : PyVal) (now : String) :
    Except PyExn MemoryStore :=
  match post_id with
  | PyVal.none => pure m
  | pid => do
    let k ← pyToInt pid
    pure { m with posts_read := dictSetInt m.posts_read k (.str now) }

/-- The `if target_id is not None: self.posts_replied[int(target_id)] =
body[:100]` step of the reply branch of `record_action`. -/
def replyTarget (m : MemoryStore) (target_id body : PyVal) :
    Except PyExn MemoryStore :=
  match target_id with
  | PyVal.none => pure m
  | tid => do
    let excerpt ← pySlice body 100
    let k ← pyToInt tid
    pure { m with posts_replied := dictSetInt m.posts_replied k excerpt }

/-- `MemoryStore.record_action`. `details` is the Python dict argument;
`now` stands for `datetime.now().isoformat()`. -/
def MemoryStore.record_action (m : MemoryStore) (action_type : String)
    (details : List (String × PyVal)) (now : String) :
    Except PyExn MemoryStore :=
  if action_type = "read_post" then do
    let m1 ← readPostTarget m (dictGetD details "post_id" PyVal.none) now
    let bots ← asStrList (dictGetD details "bots_seen" (.list []))
    let topics ← asStrList (dictGetD details "topics" (.list []))
    updateBotsLoop m1 bots topics Option.none now
  else if action_type = "create_post" then do
    let post_id := dictGetD details "post_id" PyVal.none
    let title := dictGetD details "title" (.str "")
    match post_id with
    | PyVal.none => pure m
    | pid =>
      pure { m with posts_created := m.posts_created ++
        [.dict [("id", pid), ("title", title), ("timestamp", .str now)]] }
  else if action_type = "reply_to_post" || action_type = "reply_to_reply" then do
    let body := dictGetD details "body" (.str "")
    let m1 ← replyTarget m
      (pyOr (dictGetD details "post_id" PyVal.none)
            (dictGetD details "reply_id" PyVal.none)) body
    let bots ← asStrList (dictGetD details "bots_seen" (.list []))
    let topics ← asStrList (dictGetD details "topics" (.list []))
    if bots.isEmpty then pure m1
    else do
      let b60 ← pySlice body 60
      updateBotsLoop m1 bots topics (Option.some ("Replied: " ++ pyStr b60)) now
  else if action_type = "vote" then do
    let key := dictGetD details "key" (.str "")
    let value := dictGetD details "value" (.int 0)
    if key.truthy then
      pure { m with votes_cast := dictSetPy m.votes_cast key value }
    else pure m
  else if action_type = "check_notifications" then do
    let bots ← asStrList (dictGetD details "bots_seen" (.list []))
    updateBotsLoop m bots [] Option.none now
  else pure m

/-- `MemoryStore.add_cycle_summary`: append a summary dict, keep the
most recent `MAX_CYCLE_SUMMARIES`. -/
def MemoryStore.add_cycle_summary (m : MemoryStore) (cycle : Int)
    (actions : List String) (summary : String) (now : String) : MemoryStore :=
  { m with cycle_summaries :=
      takeLast (m.cycle_summaries ++
        [.dict [("cycle", .int cycle), ("timestamp", .str now),
                ("actions", .list (actions.map PyVal.str)),
                ("summary", .str summary)]]) MAX_CYCLE_SUMMARIES }

/-- `MemoryStore.already_replied`: `int(post_id) in self.posts_replied`. -/
def MemoryStore.already_replied (m : MemoryStore) (post_id : PyVal) :
    Except PyExn Bool := do
  let k ← pyToInt post_id
  pure (m.posts_replied.any (fun e => decide (e.1 = k)))

/-- `MemoryStore.has_pending_conversations`: `len(posts_replied) > 0`. -/
def MemoryStore.has_pending_conversations (m : MemoryStore) : Bool :=
  m.posts_replied.length > 0

/-- The `for cs in reversed(self.cycle_summaries)` search inside
`cycles_since_last_post` (the argument is already reversed); returns the
`last_cycle` value, `0` when no summary lists a `create_post` action. -/
def findLastPostCycle : List PyVal → Except PyExn PyVal
  | [] => pure (.int 0)
  | cs :: rest => do
    let actions ← pyDictGetD cs "actions" (.list [])
    let found ← pyIn (.str "create_post") actions
    if found then pyDictGetItem cs "cycle"
    else findLastPostCycle rest

/-- `MemoryStore.cycles_since_last_post`. -/
def MemoryStore.cycles_since_last_post (m : MemoryStore) :
    Except PyExn PyVal :=
  if m.posts_created.isEmpty then pure (.int 999)
  else do
    let last_cycle ← findLastPostCycle m.cycle_summaries.reverse
    pySub m.cycle_count last_cycle

/- ---------------------------------------------------------------------
   llm.py: run_agent_loop
   --------------------------------------------------------------------- -/

/-- A content block of a model response (anthropic SDK content block). -/
inductive Block where
  | text (s : String) : Block
  | tool_use (id : String) (name : String) (input : PyVal) : Block
  | other : Block
deriving Repr

/-- `block.type == "tool_use"`. -/
def Block.isToolUse : Block → Bool
  | .tool_use _ _ _ => true
  | _ => false

/-- `block.id` of a tool_use block (unused constructors yield ""). -/
def Block.toolId : Block → String
  | .tool_use i _ _ => i
  | _ => ""

/-- `block.name` of a tool_use block. -/
def Block.toolName : Block → String
  | .tool_use _ n _ => n
  | _ => ""

/-- `block.input` of a tool_use block. -/
def Block.toolInput : Block → PyVal
  | .tool_use _ _ i => i
  | _ => .none

/-- A tool_result fragment as built by `run_agent_loop`
(`{"type": "tool_result", "tool_use_id": ..., "content": ...}`). -/
structure ToolResult where
  ty : String
  tool_use_id : String
  content : String
deriving Repr

/-- Message content: plain text, assistant content blocks, or a
tool-result bundle. -/
inductive MsgContent where
  | text (s : String) : MsgContent
  | blocks (bs : List Block) : MsgContent
  | results (rs : List ToolResult) : MsgContent
deriving Repr

/-- A role-tagged conversation message. -/
structure Message where
  role : String
  content : MsgContent
deriving Repr

/-- One LLM response: stop reason, content blocks and token usage. -/
structure ModelResponse where
  stop_reason : String
  content : List Block
  input_tokens : Nat
  output_tokens : Nat

/-- Mutable state of `run_agent_loop`: the conversation (mutated in
place by the Python code), the accumulated usage counters and tool-name
trace, plus a ghost counter of model calls made. -/
structure LoopState where
  messages : List Message
  input_tokens : Nat := 0
  output_tokens : Nat := 0
  tools_used : List String := []
  calls : Nat := 0

/-- Result of `run_agent_loop`: the returned text plus the final state
(the stats dict is `usage` + `tools_used`). -/
structure LoopResult where
  result : String
  messages : List Message
  input_tokens : Nat
  output_tokens : Nat
  tools_used : List String
  calls : Nat

/-- Package a final state with a returned text. -/
def LoopState.finish (st : LoopState) (r : String) : LoopResult :=
  ⟨r, st.messages, st.input_tokens, st.output_tokens, st.tools_used, st.calls⟩

/-- The `for block in assistant_content` loop of a tool_use round:
collect `tools_used` names and tool_result fragments, in emission
order. -/
def toolLoop (exec : String → PyVal → String) :
    List Block → List ToolResult → List String → List ToolResult × List String
  | [], accR, accN => (accR, accN)
  | b :: rest, accR, accN =>
    match b with
    | .tool_use id name input =>
      toolLoop exec rest (accR ++ [⟨"tool_result", id, exec name input⟩]) (accN ++ [name])
    | _ => toolLoop exec rest accR accN

/-- First block with a `text` attribute (the `hasattr(block, "text")`
scan of the end_turn branch). -/
def firstText : List Block → Option String
  | [] => Option.none
  | .text s :: _ => Option.some s
  | _ :: rest => firstText rest

/-- `run_agent_loop` from llm.py. The LLM client is modelled as a pure
oracle from the current conversation to a response; `exec` is the
`execute_tool` callable; the fuel argument is `max_iterations`
(default 20 at every call site in the repository). -/
def run_agent_loop (oracle : List Message → ModelResponse)
    (exec : String → PyVal → String) : Nat → LoopState → LoopResult
  | 0, st => st.finish "(max iterations reached)"
  | Nat.succ n, st =>
    let resp := oracle st.messages
    let st1 : LoopState :=
      { st with
        input_tokens := st.input_tokens + resp.input_tokens,
        output_tokens := st.output_tokens + resp.output_tokens,
        messages := st.messages ++ [⟨"assistant", .blocks resp.content⟩],
        calls := st.calls + 1 }
    if resp.stop_reason = "tool_use" then
      let rn := toolLoop exec resp.content [] []
      let st2 : LoopState :=
        { st1 with
          tools_used := st1.tools_used ++ rn.2,
          messages := st1.messages ++ [⟨"user", .results rn.1⟩] }
      run_agent_loop oracle exec n st2
    else if resp.stop_reason = "end_turn" then
      match firstText resp.content with
      | Option.some t => st1.finish t
      | Option.none => st1.finish ""
    else
      st1.finish "(max iterations reached)"

/-- Initial loop state over a seed conversation. -/
def initLoopState (messages : List Message) : LoopState :=
  { messages := messages }

/- ---------------------------------------------------------------------
   agent.py: strategy selection, cycle summary, personality evolution
   --------------------------------------------------------------------- -/

/-- The weighted strategy list built by `_pick_cycle_strategy`
(agent.py lines 220-247) before the weighted random draw. The random
draw itself and the prompt-template lookup carry no further logic over
memory. -/
def pick_cycle_strategy_weights (m : MemoryStore) :
    Except PyExn (List (String × Nat)) := do
  let s1 :=
    if m.has_pending_conversations then [("follow_up", 3)]
    else [("follow_up", 1)]
  let c ← m.cycles_since_last_post
  let gt ← pyGtInt c 4
  let s2 := s1 ++ (if gt then [("create_post", 2)] else [("create_post", 1)])
  let s3 := s2 ++ [("engage_reply", 2)]
  let s4 := s3 ++ [("lurk", 1)]
  pure (s4 ++ [("search_discover", 1)])

/-- The cycle-summary recording at the end of `_run_auto_cycle`
(agent.py lines 382-389): `actions` is the loop's `tools_used` list and
`summary` is `response[:150] if response else "no response"`. -/
def run_auto_cycle_record (m : MemoryStore) (cycle : Int) (r : LoopResult)
    (now : String) : MemoryStore :=
  m.add_cycle_summary cycle r.tools_used
    (if r.result ≠ "" then strTake r.result 150 else "no response") now

/-- The update-application step of `evolve_personality_from_posts`
(agent.py lines 524-529): given the personality dict and the JSON object
parsed from the model's response, for each key in `("interests",
"opinions")` present in the update with a truthy value, overwrite the
personality field with the supplied value. Returns the updated
personality and the `changed` flag. -/
def evolve_personality_apply (personality updates : List (String × PyVal)) :
    List (String × PyVal) × Bool :=
  ["interests", "opinions"].foldl
    (fun pc key =>
      match dictGet updates key with
      | Option.some v => if v.truthy then (dictSet pc.1 key v, true) else pc
      | Option.none => pc)
    (personality, false)

/- ---------------------------------------------------------------------
   memory.py: load()
   --------------------------------------------------------------------- -/

/-- The state `load()` finds: no persistence file, a file whose contents
fail JSON parsing (`json.JSONDecodeError`, caught), or a parsed JSON
document. -/
inductive LoadInput where
  | absent : LoadInput
  | parseError : LoadInput
  | parsed (doc : PyVal) : LoadInput

/-- Outcome of `load()`: a returned store, an uncaught exception, or a
document whose loosely-assigned fields do not fit the dataclass's
declared field types (Python would return a type-confused store there;
no claim exercises those states, so they are kept abstract). -/
inductive LoadResult where
  | store (m : MemoryStore) : LoadResult
  | illTyped : LoadResult
  | raises (e : PyExn) : LoadResult
deriving Repr

/-- The `{int(k): v for k, v in ....items()}` comprehension: converts
string keys to int keys, `Option.none` models the ValueError that the
first non-numeric key raises (caught by `load`). -/
def convertIntKeys : List (String × PyVal) → Option (List (Int × PyVal))
  | [] => Option.some []
  | (k, v) :: rest =>
    match pyIntOfString k with
    | Option.some n => (convertIntKeys rest).map (fun l => (n, v) :: l)
    | Option.none => Option.none

/-- `load()` from memory.py. An absent file or a JSON parse failure
yields a fresh store; a top-level non-object document, or a non-object
`posts_read` / `posts_replied` member, raises AttributeError (calling
`.get` / `.items` on a non-dict), which the `except (JSONDecodeError,
ValueError, KeyError)` clause does not catch; a failing `int(k)` key
conversion raises ValueError, which is caught, yielding a fresh store. -/
def load : LoadInput → LoadResult
  | .absent => .store {}
  | .parseError => .store {}
  | .parsed doc =>
    match doc with
    | .dict d =>
      match dictGetD d "posts_read" (.dict []) with
      | .dict pr =>
        match convertIntKeys pr with
        | Option.none => .store {}
        | Option.some posts_read =>
          match dictGetD d "posts_replied" (.dict []) with
          | .dict po =>
            match convertIntKeys po with
            | Option.none => .store {}
            | Option.some posts_replied =>
              match dictGetD d "posts_created" (.list []),
                    dictGetD d "votes_cast" (.dict []),
                    dictGetD d "bots_interacted" (.dict []),
                    dictGetD d "cycle_summaries" (.list []) with
              | .list pc, .dict vc, .dict bi, .list cs =>
                .store ⟨posts_read, posts_replied, pc,
                        vc.map (fun e => (PyVal.str e.1, e.2)), bi, cs,
                        dictGetD d "cycle_count" (.int 0)⟩
              | _, _, _, _ => .illTyped
          | _ => .raises (.attributeError "posts_replied has no attribute items")
      | _ => .raises (.attributeError "posts_read has no attribute items")
    | _ => .raises (.attributeError "document has no attribute get")

/- ---------------------------------------------------------------------
   tools.py: execute_tool and memory recording
   --------------------------------------------------------------------- -/

/-- The settings fields used by tools.py. -/
structure Settings where
  bot_book_url : String
  bot_book_api_key : String
  http_timeout : Nat

/-- An HTTP request as issued by the httpx calls in tools.py. -/
structure HttpRequest where
  method : String
  url : String
  headers : List (String × String)
  params : List (String × PyVal)
  jsonBody : Option PyVal

/-- Outcome of an HTTP call: a response (status code, body text and the
JSON parse of that text — `Option.none` when `json.loads` would fail),
or a transport-level exception (timeout, connection error). -/
inductive HttpOutcome where
  | resp (status : Nat) (text : String) (parsedText : Option PyVal) : HttpOutcome
  | exn (msg : String) : HttpOutcome

/-- `_headers()` from tools.py. -/
def headersOf (S : Settings) : List (String × String) :=
  [("X-API-Key", S.bot_book_api_key), ("Content-Type", "application/json")]

/-- `_url(path)` from tools.py. -/
def urlOf (S : Settings) (path : String) : String :=
  S.bot_book_url ++ "/api/v1" ++ path

/-- One httpx call followed by `r.raise_for_status()`: a transport
failure raises, a non-2xx status raises `HTTPStatusError`, a success
yields `(r.text, json parse of r.text)`. -/
def doRequest (S : Settings) (oracle : HttpRequest → HttpOutcome)
    (method : String) (path : String) (params : List (String × PyVal))
    (body : Option PyVal) : Except PyExn (String × Option PyVal) :=
  match oracle ⟨method, urlOf S path, headersOf S, params, body⟩ with
  | .exn msg => .error (.httpTransportError msg)
  | .resp status text parsed =>
    if 200 ≤ status ∧ status < 300 then .ok (text, parsed)
    else .error (.httpStatusError status text)

/-- `_paginated_params` from tools.py. -/
def paginatedParams (ti : List (String × PyVal)) : List (String × PyVal) :=
  let p1 :=
    match dictGet ti "page" with
    | Option.some v => [("page", v)]
    | Option.none => []
  match dictGet ti "per_page" with
  | Option.some v => p1 ++ [("per_page", v)]
  | Option.none => p1

/-- `tool_input[k]`: KeyError when the argument is missing. -/
def requireArg (ti : List (String × PyVal)) (k : String) : Except PyExn PyVal :=
  match dictGet ti k with
  | Option.some v => .ok v
  | Option.none => .error (.keyError k)

/-- Names from a `bot`-shaped member: `isinstance(bot, dict) and "name"
in bot`. Non-string name values are outside the typed model of bot
names and are not collected (the server API always returns strings). -/
def namesFromBotVal (v : PyVal) : List String :=
  match v with
  | .dict b =>
    match dictGet b "name" with
    | Option.some (.str n) => [n]
    | _ => []
  | _ => []

/-- The per-reply body of the `for reply in data.get("replies", [])`
loop of `_extract_bot_names`, including the nested-children loop. -/
def namesFromReply (reply : PyVal) : Except PyExn (List String) :=
  match reply with
  | .dict rd => do
    let fromRb := namesFromBotVal (dictGetD rd "bot" PyVal.none)
    let children ← pyIter (dictGetD rd "replies" (.list []))
    let fromChildren := children.map (fun child =>
      match child with
      | .dict cd => namesFromBotVal (dictGetD cd "bot" PyVal.none)
      | _ => [])
    pure (fromRb ++ fromChildren.flatten)
  | _ => pure []

/-- The `for item in data.get("items", [])` body of
`_extract_bot_names`. -/
def namesFromItem (item : PyVal) : List String :=
  match item with
  | .dict idd =>
    namesFromBotVal (dictGetD idd "bot" PyVal.none) ++
    (if dictHas idd "name" && dictHas idd "karma" then
      match dictGet idd "name" with
      | Option.some (.str n) => [n]
      | _ => []
    else [])
  | _ => []

/-- Order-keeping deduplication loop (helper for `list(set(names))`). -/
def dedupGo : List String → List String → List String
  | [], _ => []
  | x :: rest, seen =>
    if x ∈ seen then dedupGo rest seen else x :: dedupGo rest (x :: seen)

/-- Stand-in for `list(set(names))`: CPython's set iteration order is
unspecified, so a deterministic first-occurrence dedup is used; no
property proved here depends on the order. -/
def dedupFirst (l : List String) : List String := dedupGo l []

/-- `_extract_bot_names` from tools.py. Can raise TypeError when a
`replies` / `notifications` / `items` member of a dict response is not
iterable, exactly as the unguarded `for` loops do. -/
def extract_bot_names (data : PyVal) : Except PyExn (List String) :=
  match data with
  | .dict d => do
    let base := namesFromBotVal (dictGetD d "bot" PyVal.none)
    let replies ← pyIter (dictGetD d "replies" (.list []))
    let fromReplies ← replies.mapM namesFromReply
    let notifs ← pyIter (dictGetD d "notifications" (.list []))
    let fromNotifs := notifs.map (fun n =>
      match n with
      | .dict nd => namesFromBotVal (dictGetD nd "from_bot" PyVal.none)
      | _ => [])
    let items ← pyIter (dictGetD d "items" (.list []))
    let fromItems := items.map namesFromItem
    pure (dedupFirst (base ++ fromReplies.flatten ++ fromNotifs.flatten ++ fromItems.flatten))
  | _ => pure []

/-- `_record_to_memory` from tools.py. `parsed` is the JSON parse of the
result text (`Option.none` models a `json.loads` failure, giving
`data = {}`). -/
def record_to_memory (mem : Option MemoryStore) (tool_name : String)
    (ti : List (String × PyVal)) (parsed : Option PyVal) (now : String) :
    Except PyExn (Option MemoryStore) :=
  match mem with
  | Option.none => pure Option.none
  | Option.some m => do
    let data := parsed.getD (.dict [])
    let bot_names ← extract_bot_names data
    let bots_seen := PyVal.list (bot_names.map PyVal.str)
    if tool_name = "read_post" then do
      let m' ← m.record_action "read_post"
        [("post_id", dictGetD ti "post_id" PyVal.none), ("bots_seen", bots_seen)] now
      pure (Option.some m')
    else if tool_name = "create_post" then do
      let post_id ← pyDictGetD data "id" PyVal.none
      let m' ← m.record_action "create_post"
        [("post_id", post_id), ("title", dictGetD ti "title" (.str ""))] now
      pure (Option.some m')
    else if tool_name = "reply_to_post" then do
      let m' ← m.record_action "reply_to_post"
        [("post_id", dictGetD ti "post_id" PyVal.none),
         ("body", dictGetD ti "body" (.str "")), ("bots_seen", bots_seen)] now
      pure (Option.some m')
    else if tool_name = "reply_to_reply" then do
      let m' ← m.record_action "reply_to_reply"
        [("reply_id", dictGetD ti "reply_id" PyVal.none),
         ("body", dictGetD ti "body" (.str "")), ("bots_seen", bots_seen)] now
      pure (Option.some m')
    else if tool_name = "vote" then
      match dictGet ti "post_id" with
      | Option.some pid => do
        let m' ← m.record_action "vote"
          [("key", .str ("post:" ++ pyStr pid)),
           ("value", dictGetD ti "value" (.int 0))] now
        pure (Option.some m')
      | Option.none =>
        match dictGet ti "reply_id" with
        | Option.some rid => do
          let m' ← m.record_action "vote"
            [("key", .str ("reply:" ++ pyStr rid)),
             ("value", dictGetD ti "value" (.int 0))] now
          pure (Option.some m')
        | Option.none => pure (Option.some m)
    else if tool_name = "check_notifications" then do
      let m' ← m.record_action "check_notifications" [("bots_seen", bots_seen)] now
      pure (Option.some m')
    else pure (Option.some m)

/-- The body of `execute_tool` (everything inside the `try`), returning
the result text or the exception the Python body would raise. -/
def execute_tool_body (S : Settings) (oracle : HttpRequest → HttpOutcome)
    (tool_name : String) (ti : List (String × PyVal)) (mem : Option MemoryStore)
    (now : String) : Except PyExn String :=
  if tool_name = "list_posts" then do
    let params := paginatedParams ti
    let params :=
      match dictGet ti "sort" with
      | Option.some v => params ++ [("sort", v)]
      | Option.none => params
    let params :=
      match dictGet ti "tag" with
      | Option.some v => params ++ [("tag", v)]
      | Option.none => params
    let tp ← doRequest S oracle "GET" "/posts" params Option.none
    let _ ← record_to_memory mem tool_name ti tp.2 now
    pure tp.1
  else if tool_name = "read_post" then do
    let post_id ← requireArg ti "post_id"
    let params :=
      match dictGet ti "reply_sort" with
      | Option.some v => [("reply_sort", v)]
      | Option.none => []
    let tp ← doRequest S oracle "GET" ("/posts/" ++ pyStr post_id) params Option.none
    let _ ← record_to_memory mem tool_name ti tp.2 now
    pure tp.1
  else if tool_name = "create_post" then do
    let title ← requireArg ti "title"
    let body ← requireArg ti "body"
    let payload := [("title", title), ("body", body)]
    let payload :=
      match dictGet ti "tags" with
      | Option.some v => payload ++ [("tags", v)]
      | Option.none => payload
    let payload :=
      match dictGet ti "poll" with
      | Option.some v => payload ++ [("poll", v)]
      | Option.none => payload
    let tp ← doRequest S oracle "POST" "/posts" [] (Option.some (.dict payload))
    let _ ← record_to_memory mem tool_name ti tp.2 now
    pure tp.1
  else if tool_name = "reply_to_post" then do
    let post_id ← requireArg ti "post_id"
    let body ← requireArg ti "body"
    let influence ← requireArg ti "influence"
    let payload := [("body", body), ("influence", influence)]
    let payload :=
      match dictGet ti "parent_id" with
      | Option.some v => payload ++ [("parent_id", v)]
      | Option.none => payload
    let tp ← doRequest S oracle "POST" ("/posts/" ++ pyStr post_id ++ "/replies")
      [] (Option.some (.dict payload))
    let _ ← record_to_memory mem tool_name ti tp.2 now
    pure tp.1
  else if tool_name = "reply_to_reply" then do
    let reply_id ← requireArg ti "reply_id"
    let body ← requireArg ti "body"
    let influence ← requireArg ti "influence"
    let tp ← doRequest S oracle "POST" ("/replies/" ++ pyStr reply_id ++ "/reply")
      [] (Option.some (.dict [("body", body), ("influence", influence)]))
    let _ ← record_to_memory mem tool_name ti tp.2 now
    pure tp.1
  else if tool_name = "vote" then do
    let value ← requireArg ti "value"
    match dictGet ti "post_id" with
    | Option.some pid => do
      let tp ← doRequest S oracle "POST" ("/posts/" ++ pyStr pid ++ "/vote")
        [] (Option.some (.dict [("value", value)]))
      let _ ← record_to_memory mem tool_name ti tp.2 now
      pure tp.1
    | Option.none =>
      match dictGet ti "reply_id" with
      | Option.some rid => do
        let tp ← doRequest S oracle "POST" ("/replies/" ++ pyStr rid ++ "/vote")
          [] (Option.some (.dict [("value", value)]))
        let _ ← record_to_memory mem tool_name ti tp.2 now
        pure tp.1
      | Option.none => pure "Error: must provide either post_id or reply_id"
  else if tool_name = "search_posts" then do
    let q ← requireArg ti "query"
    let params := paginatedParams ti ++ [("q", q)]
    let tp ← doRequest S oracle "GET" "/search" params Option.none
    let _ ← record_to_memory mem tool_name ti tp.2 now
    pure tp.1
  else if tool_name = "check_notifications" then do
    let params := paginatedParams ti
    let params :=
      if (dictGetD ti "unread_only" (.bool true)).truthy then
        params ++ [("unread_only", .str "true")]
      else params
    let tp ← doRequest S oracle "GET" "/notifications" params Option.none
    let _ ← record_to_memory mem tool_name ti tp.2 now
    pure tp.1
  else if tool_name = "mark_notification_read" then do
    let nid ← requireArg ti "notification_id"
    let tp ← doRequest S oracle "POST"
      ("/notifications/" ++ pyStr nid ++ "/read") [] Option.none
    pure tp.1
  else if tool_name = "mark_all_notifications_read" then do
    let tp ← doRequest S oracle "POST" "/notifications/read-all" [] Option.none
    pure tp.1
  else if tool_name = "list_bots" then do
    let params := paginatedParams ti
    let params :=
      match dictGet ti "sort" with
      | Option.some v => params ++ [("sort", v)]
      | Option.none => params
    let tp ← doRequest S oracle "GET" "/bots" params Option.none
    pure tp.1
  else if tool_name = "get_bot" then do
    let bot_name ← requireArg ti "bot_name"
    let tp ← doRequest S oracle "GET" ("/bots/" ++ pyStr bot_name) [] Option.none
    pure tp.1
  else if tool_name = "get_profile" then do
    let tp ← doRequest S oracle "GET" "/me" [] Option.none
    pure tp.1
  else if tool_name = "update_profile" then do
    let bio ← requireArg ti "bio"
    let tp ← doRequest S oracle "PUT" "/me" [] (Option.some (.dict [("bio", bio)]))
    pure tp.1
  else if tool_name = "follow_bot" then do
    let bot_name ← requireArg ti "bot_name"
    let tp ← doRequest S oracle "POST"
      ("/bots/" ++ pyStr bot_name ++ "/follow") [] Option.none
    pure tp.1
  else if tool_name = "unfollow_bot" then do
    let bot_name ← requireArg ti "bot_name"
    let tp ← doRequest S oracle "DELETE"
      ("/bots/" ++ pyStr bot_name ++ "/follow") [] Option.none
    pure tp.1
  else if tool_name = "get_feed" then do
    let tp ← doRequest S oracle "GET" "/feed" (paginatedParams ti) Option.none
    pure tp.1
  else if tool_name = "my_following" then do
    let tp ← doRequest S oracle "GET" "/me/following" (paginatedParams ti) Option.none
    pure tp.1
  else if tool_name = "my_followers" then do
    let tp ← doRequest S oracle "GET" "/me/followers" (paginatedParams ti) Option.none
    pure tp.1
  else if tool_name = "my_posts" then do
    let tp ← doRequest S oracle "GET" "/me/posts" (paginatedParams ti) Option.none
    pure tp.1
  else if tool_name = "my_replies" then do
    let tp ← doRequest S oracle "GET" "/me/replies" (paginatedParams ti) Option.none
    pure tp.1
  else if tool_name = "edit_post" then do
    let post_id ← requireArg ti "post_id"
    let payload : List (String × PyVal) :=
      match dictGet ti "title" with
      | Option.some v => [("title", v)]
      | Option.none => []
    let payload :=
      match dictGet ti "body" with
      | Option.some v => payload ++ [("body", v)]
      | Option.none => payload
    if payload.isEmpty then
      pure "Error: must provide at least title or body to edit"
    else do
      let tp ← doRequest S oracle "PUT" ("/posts/" ++ pyStr post_id)
        [] (Option.some (.dict payload))
      pure tp.1
  else if tool_name = "edit_reply" then do
    let reply_id ← requireArg ti "reply_id"
    let body ← requireArg ti "body"
    let tp ← doRequest S oracle "PUT" ("/replies/" ++ pyStr reply_id)
      [] (Option.some (.dict [("body", body)]))
    pure tp.1
  else if tool_name = "get_poll" then do
    let poll_id ← requireArg ti "poll_id"
    let tp ← doRequest S oracle "GET" ("/polls/" ++ pyStr poll_id) [] Option.none
    pure tp.1
  else if tool_name = "vote_poll" then do
    let poll_id ← requireArg ti "poll_id"
    let option_id ← requireArg ti "option_id"
    let tp ← doRequest S oracle "POST" ("/polls/" ++ pyStr poll_id ++ "/vote")
      [] (Option.some (.dict [("option_id", option_id)]))
    pure tp.1
  else if tool_name = "list_bookmarks" then do
    let tp ← doRequest S oracle "GET" "/bookmarks" (paginatedParams ti) Option.none
    pure tp.1
  else if tool_name = "bookmark_post" then do
    let post_id ← requireArg ti "post_id"
    let tp ← doRequest S oracle "POST"
      ("/posts/" ++ pyStr post_id ++ "/bookmark") [] Option.none
    pure tp.1
  else if tool_name = "remove_bookmark" then do
    let post_id ← requireArg ti "post_id"
    let tp ← doRequest S oracle "DELETE"
      ("/posts/" ++ pyStr post_id ++ "/bookmark") [] Option.none
    pure tp.1
  else if tool_name = "list_tags" then do
    let tp ← doRequest S oracle "GET" "/tags" [] Option.none
    pure tp.1
  else if tool_name = "get_influence" then do
    let bot_name ← requireArg ti "bot_name"
    let tp ← doRequest S oracle "GET"
      ("/bots/" ++ pyStr bot_name ++ "/influence") (paginatedParams ti) Option.none
    pure tp.1
  else
    pure ("Unknown tool: " ++ tool_name)

/-- A single-quote character (for rendering `str(KeyError(...))`). -/
def sq : String := String.singleton (Char.ofNat 39)

/-- `str(e)` for the exceptions the catch-all handler formats. -/
def pyExnText : PyExn → String
  | .keyError k => sq ++ k ++ sq
  | .valueError m => m
  | .typeError m => m
  | .attributeError m => m
  | .httpStatusError s t => "HTTP status " ++ intStr (s : Int) ++ ": " ++ t
  | .httpTransportError m => m

/-- `execute_tool` from tools.py: the body wrapped in the
`try/except httpx.HTTPStatusError / except Exception` handlers; always
returns a text, never propagates an exception. -/
def execute_tool (S : Settings) (oracle : HttpRequest → HttpOutcome)
    (tool_name : String) (ti : List (String × PyVal)) (mem : Option MemoryStore)
    (now : String) : String :=
  match execute_tool_body S oracle tool_name ti mem now with
  | .ok t => t
  | .error (.httpStatusError status text) =>
    "HTTP error " ++ intStr (status : Int) ++ ": " ++ text
  | .error e => "Error: " ++ pyExnText e

/- ---------------------------------------------------------------------
   Auxiliary specification forms and concrete fixtures
   --------------------------------------------------------------------- -/

/-- Well-formedness of a Python dict modelled with `PyVal` keys: all
keys pairwise distinct under Python `==` (CPython guarantees this). -/
def PyDictWF (d : List (PyVal × PyVal)) : Prop :=
  d.Pairwise (fun a b => pyEq a.1 b.1 = false)

/-- `True` on dict values. -/
def isDictVal : PyVal → Bool
  | .dict _ => true
  | _ => false

/-- The documents on which `load` raises: a non-object top level, or a
present non-object `posts_read` / `posts_replied` member (reached in
that order). -/
def loadRaiseCondition (doc : PyVal) : Bool :=
  match doc with
  | .dict d =>
    match dictGetD d "posts_read" (.dict []) with
    | .dict pr =>
      match convertIntKeys pr with
      | Option.some _ => !isDictVal (dictGetD d "posts_replied" (.dict []))
      | Option.none => false
    | _ => true
  | _ => true

/-- The state reached after one tool-request round of `run_agent_loop`,
written in specification form: the assistant message followed by a
single user message holding one tool_result per tool_use block, in
block order, each tagged with that block's id. -/
def toolRoundState (oracle : List Message → ModelResponse)
    (exec : String → PyVal → String) (st : LoopState) : LoopState :=
  let resp := oracle st.messages
  let tus := resp.content.filter Block.isToolUse
  { messages := st.messages ++
      [⟨"assistant", .blocks resp.content⟩,
       ⟨"user", .results (tus.map (fun b =>
         ⟨"tool_result", b.toolId, exec b.toolName b.toolInput⟩))⟩],
    input_tokens := st.input_tokens + resp.input_tokens,
    output_tokens := st.output_tokens + resp.output_tokens,
    tools_used := st.tools_used ++ tus.map Block.toolName,
    calls := st.calls + 1 }

/-- A model oracle that always stops with an unrecognized stop reason. -/
def stallOracle : List Message → ModelResponse :=
  fun _ => ⟨"max_tokens", [], 0, 0⟩

/-- A model oracle that always requests one tool invocation. -/
def pingOracle : List Message → ModelResponse :=
  fun _ => ⟨"tool_use", [.tool_use "id0" "list_tags" (.dict [])], 1, 2⟩

/-- A model oracle that requests the same tool twice in its first round
and then finishes. -/
def dupOracle : List Message → ModelResponse :=
  fun msgs =>
    if msgs.isEmpty then
      ⟨"tool_use", [.tool_use "a" "read_post" (.dict [("post_id", .int 7)]),
                    .tool_use "b" "read_post" (.dict [("post_id", .int 8)])], 0, 0⟩
    else ⟨"end_turn", [.text "done"], 0, 0⟩

/-- A trivial tool executor. -/
def nullExec : String → PyVal → String := fun _ _ => ""

/-- The memory state of end-to-end scenario B of the specification,
taken literally: `cycle_count = 10`, one cycle summary at cycle 9
listing a `create_post` action, every other field at its dataclass
default (in particular `posts_created = []`). -/
def scenarioB : MemoryStore :=
  { cycle_count := .int 10,
    cycle_summaries := [.dict [("cycle", .int 9), ("timestamp", .str "t"),
      ("actions", .list [.str "create_post"]), ("summary", .str "s")]] }

/-- The personality record used as a concrete evolution fixture. -/
def personalityFixture : List (String × PyVal) :=
  [("name", .str "Agent"), ("description", .str ""),
   ("interests", .list [.str "a"]), ("tone", .str ""),
   ("opinions", .list [.str "o1"]), ("instructions", .list [])]

/- ---------------------------------------------------------------------
   Theorems
   --------------------------------------------------------------------- -/

/-- C7. The specification's end-to-end scenario B taken literally fails
on the code: for the memory state with `cycle_count = 10` and one cycle
summary at cycle 9 whose actions contain "create_post" (and all other
fields at their defaults, so `posts_created = []`),
`cycles_since_last_post()` returns 999 — the `if not self.posts_created:
return 999` guard fires — not 1. -/
theorem cycles_since_last_post_scenarioB_literal :
    scenarioB.cycles_since_last_post = .ok (.int 999) ∧
    scenarioB.cycles_since_last_post ≠ .ok (.int 1) := by
  refine ⟨rfl, ?_⟩
  intro h
  rw [show scenarioB.cycles_since_last_post = .ok (.int 999) from rfl] at h
  simp at h

/-- C7 (amended). Scenario B holds once the store also records at least
one created post (so the `posts_created` emptiness guard does not fire):
with `cycle_count = 10`, a cycle summary at cycle 9 containing
"create_post", and a non-empty `posts_created`, `cycles_since_last_post`
returns `10 - 9 = 1`. -/
theorem cycles_since_last_post_scenarioB_with_posts :
    ({ scenarioB with posts_created :=
        [.dict [("id", .int 1), ("title", .str "x"), ("timestamp", .str "t")]] }
      : MemoryStore).cycles_since_last_post = .ok (.int 1) := rfl

/-- C4. The strategy selector builds exactly the weighted list
`follow_up ↦ 3/1` (pending conversations or not), `create_post ↦ 2/1`
(more than 4 cycles since the last post or not), `engage_reply ↦ 2`,
`lurk ↦ 1`, `search_discover ↦ 1`; and with an empty `posts_replied`
the `follow_up` weight is the low one (1). -/
theorem pick_cycle_strategy_weights_spec (m : MemoryStore) (n : Int)
    (h : m.cycles_since_last_post = .ok (.int n)) :
    pick_cycle_strategy_weights m = .ok
      [("follow_up", if m.has_pending_conversations then 3 else 1),
       ("create_post", if n > 4 then 2 else 1),
       ("engage_reply", 2), ("lurk", 1), ("search_discover", 1)] ∧
    (m.posts_replied = [] →
      pick_cycle_strategy_weights m = .ok
        [("follow_up", 1), ("create_post", if n > 4 then 2 else 1),
         ("engage_reply", 2), ("lurk", 1), ("search_discover", 1)]) := by
  have h1 : pick_cycle_strategy_weights m = .ok
      [("follow_up", if m.has_pending_conversations then 3 else 1),
       ("create_post", if n > 4 then 2 else 1),
       ("engage_reply", 2), ("lurk", 1), ("search_discover", 1)] := by
    unfold pick_cycle_strategy_weights
    rw [h]
    by_cases hp : m.has_pending_conversations <;>
      by_cases hg : n > 4 <;>
        simp [hp, hg, pyGtInt, bind, Except.bind, Functor.map, Except.map, pure, Except.pure]
  refine ⟨h1, fun hrep => ?_⟩
  have hp : m.has_pending_conversations = false := by
    simp [MemoryStore.has_pending_conversations, hrep]
  rw [h1, hp]
  simp

/-- C4 witness: the empty store has no pending conversations and 999
cycles since the last post, so the selector yields the low `follow_up`
weight and the high `create_post` weight. -/
theorem pick_cycle_strategy_weights_spec_witness :
    pick_cycle_strategy_weights ({} : MemoryStore) = .ok
      [("follow_up", 1), ("create_post", 2), ("engage_reply", 2),
       ("lurk", 1), ("search_discover", 1)] := by
  have h := (pick_cycle_strategy_weights_spec {} 999 rfl).2 rfl
  simpa using h

/-- C5. `execute_tool` is total: whatever the tool name, argument map,
memory state and HTTP behavior, its body's outcome is handled — a
normal result text is returned as is, a `raise_for_status` failure is
returned as a text beginning with "HTTP error <status>", and any other
exception (timeout, missing argument via KeyError, malformed input,
memory-recording failure) is returned as a text beginning with
"Error:"; no exception propagates. -/
theorem execute_tool_total (S : Settings) (oracle : HttpRequest → HttpOutcome)
    (tool_name : String) (ti : List (String × PyVal)) (mem : Option MemoryStore)
    (now : String) :
    (∃ t, execute_tool_body S oracle tool_name ti mem now = .ok t ∧
      execute_tool S oracle tool_name ti mem now = t) ∨
    (∃ c txt, execute_tool_body S oracle tool_name ti mem now =
        .error (.httpStatusError c txt) ∧
      execute_tool S oracle tool_name ti mem now =
        "HTTP error " ++ intStr (c : Int) ++ ": " ++ txt) ∨
    (∃ e, execute_tool_body S oracle tool_name ti mem now = .error e ∧
      (∀ c txt, e ≠ .httpStatusError c txt) ∧
      execute_tool S oracle tool_name ti mem now = "Error: " ++ pyExnText e) := by
  cases h : execute_tool_body S oracle tool_name ti mem now with
  | ok t =>
    exact Or.inl ⟨t, rfl, by simp [execute_tool, h]⟩
  | error e =>
    cases e with
    | httpStatusError c txt =>
      exact Or.inr (Or.inl ⟨c, txt, rfl, by simp [execute_tool, h]⟩)
    | keyError k =>
      exact Or.inr (Or.inr ⟨_, rfl,
        (fun c txt hct => PyExn.noConfusion hct), (by simp [execute_tool, h])⟩)
    | valueError msg =>
      exact Or.inr (Or.inr ⟨_, rfl,
        (fun c txt hct => PyExn.noConfusion hct), (by simp [execute_tool, h])⟩)
    | typeError msg =>
      exact Or.inr (Or.inr ⟨_, rfl,
        (fun c txt hct => PyExn.noConfusion hct), (by simp [execute_tool, h])⟩)
    | attributeError msg =>
      exact Or.inr (Or.inr ⟨_, rfl,
        (fun c txt hct => PyExn.noConfusion hct), (by simp [execute_tool, h])⟩)
    | httpTransportError msg =>
      exact Or.inr (Or.inr ⟨_, rfl,
        (fun c txt hct => PyExn.noConfusion hct), (by simp [execute_tool, h])⟩)

/-- C10. `load()` can raise: a persistence file whose JSON parses to a
non-object (here the empty array) makes `data.get("posts_read", {})`
raise AttributeError, which the `except (json.JSONDecodeError,
ValueError, KeyError)` clause does not catch. -/
theorem load_counterexample_list_document :
    load (.parsed (.list [])) =
      .raises (.attributeError "document has no attribute get") := rfl

/-- C10 (amended). `load()` returns a fresh empty store when the file is
absent, when the contents fail JSON parsing, or when an integer key
conversion of `posts_read` fails (ValueError, caught); when the document
and its `posts_read` / `posts_replied` members are objects it returns a
store with those members' string keys converted to integer keys; an
exception escapes only as an AttributeError, and only when the top
level, or a present `posts_read` / `posts_replied` member, is not an
object. -/
theorem load_spec :
    load .absent = .store {} ∧
    load .parseError = .store {} ∧
    (∀ doc e, load (.parsed doc) = .raises e →
      (∃ msg, e = .attributeError msg) ∧ loadRaiseCondition doc = true) ∧
    (∀ d pr po prK poK m,
      dictGetD d "posts_read" (.dict []) = .dict pr →
      dictGetD d "posts_replied" (.dict []) = .dict po →
      convertIntKeys pr = Option.some prK →
      convertIntKeys po = Option.some poK →
      load (.parsed (.dict d)) = .store m →
      m.posts_read = prK ∧ m.posts_replied = poK) ∧
    (∀ d pr,
      dictGetD d "posts_read" (.dict []) = .dict pr →
      convertIntKeys pr = Option.none →
      load (.parsed (.dict d)) = .store {}) := by
  refine ⟨rfl, rfl, ?_, ?_, ?_⟩
  · intro doc e h
    cases doc
    case dict d =>
      rcases hpr : dictGetD d "posts_read" (.dict []) with _ | b | n | s | xs | pr
      case dict =>
        rcases hck : convertIntKeys pr with _ | prK
        · simp only [load, hpr, hck] at h
          exact absurd h (by simp)
        · rcases hpo : dictGetD d "posts_replied" (.dict []) with _ | b2 | n2 | s2 | xs2 | po
          case dict =>
            rcases hck2 : convertIntKeys po with _ | poK
            · simp only [load, hpr, hck, hpo, hck2] at h
              exact absurd h (by simp)
            · simp only [load, hpr, hck, hpo, hck2] at h
              split at h <;> exact absurd h (by simp)
          all_goals
            simp only [load, hpr, hck, hpo] at h
          all_goals
            exact ⟨⟨_, (LoadResult.raises.inj h).symm⟩,
              by simp [loadRaiseCondition, hpr, hck, hpo, isDictVal]⟩
      all_goals
        simp only [load, hpr] at h
      all_goals
        exact ⟨⟨_, (LoadResult.raises.inj h).symm⟩,
          by simp [loadRaiseCondition, hpr]⟩
    all_goals
      exact ⟨⟨_, (LoadResult.raises.inj h).symm⟩, rfl⟩
  · intro d pr po prK poK m h1 h2 h3 h4 h
    simp only [load, h1, h3, h2, h4] at h
    split at h
    · simp only [LoadResult.store.injEq] at h
      subst h
      exact ⟨rfl, rfl⟩
    · exact absurd h (by simp)
  · intro d pr h1 h2
    simp only [load, h1, h2]

/-- C10 witness: concrete instances of `load_spec` — a non-object
document satisfies the raise condition; a well-formed document gets its
string keys converted back to integers; a non-numeric key yields a
fresh store. -/
theorem load_spec_witness :
    loadRaiseCondition (.int 5) = true ∧
    ({ posts_read := [((3 : Int), PyVal.str "t")],
       posts_replied := [((4 : Int), PyVal.str "s")] } : MemoryStore).posts_read
      = [((3 : Int), PyVal.str "t")] ∧
    load (.parsed (.dict [("posts_read", .dict [("x", .none)])])) = .store {} := by
  refine ⟨?_, ?_, ?_⟩
  · exact (load_spec.2.2.1 (.int 5) _ rfl).2
  · exact (load_spec.2.2.2.1
      [("posts_read", .dict [("3", .str "t")]), ("posts_replied", .dict [("4", .str "s")])]
      [("3", .str "t")] [("4", .str "s")]
      [((3 : Int), .str "t")] [((4 : Int), .str "s")]
      { posts_read := [((3 : Int), PyVal.str "t")],
        posts_replied := [((4 : Int), PyVal.str "s")] }
      rfl rfl rfl rfl rfl).1
  · exact load_spec.2.2.2.2 [("posts_read", .dict [("x", .none)])] [("x", .none)] rfl rfl

/-- The tool-collection loop equals a filter/map over the tool_use
blocks, in emission order (shared helper). -/
theorem toolLoop_spec (exec : String → PyVal → String) (blocks : List Block)
    (accR : List ToolResult) (accN : List String) :
    toolLoop exec blocks accR accN =
      (accR ++ (blocks.filter Block.isToolUse).map
        (fun b => ⟨"tool_result", b.toolId, exec b.toolName b.toolInput⟩),
       accN ++ (blocks.filter Block.isToolUse).map Block.toolName) := by
  induction blocks generalizing accR accN with
  | nil => simp [toolLoop]
  | cons b rest ih =>
    cases b with
    | tool_use id name input =>
      simp [toolLoop, Block.isToolUse, ih, Block.toolId, Block.toolName, Block.toolInput]
    | text s => simp [toolLoop, Block.isToolUse, ih]
    | other => simp [toolLoop, Block.isToolUse, ih]

/-- One tool-request round of the loop equals the specification-form
round step (shared helper). -/
theorem run_agent_loop_toolStep (oracle : List Message → ModelResponse)
    (exec : String → PyVal → String) (st : LoopState) (n : Nat)
    (h : (oracle st.messages).stop_reason = "tool_use") :
    run_agent_loop oracle exec (n + 1) st =
      run_agent_loop oracle exec n (toolRoundState oracle exec st) := by
  simp only [run_agent_loop, h, if_pos, toolLoop_spec, toolRoundState]
  congr 1
  simp

/-- C2. As stated the claim fails: a model response whose stop reason is
neither tool_use nor end_turn hits the `else: break` branch, so with the
default `max_iterations = 20` and a model that always stops with
"max_tokens" (never an end_turn final answer), the loop returns the
sentinel after exactly 1 model call, not after 20. -/
theorem run_agent_loop_stall_counterexample :
    (run_agent_loop stallOracle nullExec 20 (initLoopState [])).result =
      "(max iterations reached)" ∧
    (run_agent_loop stallOracle nullExec 20 (initLoopState [])).calls = 1 ∧
    (run_agent_loop stallOracle nullExec 20 (initLoopState [])).calls ≠ 20 := by
  refine ⟨rfl, rfl, ?_⟩
  intro h
  rw [show (run_agent_loop stallOracle nullExec 20 (initLoopState [])).calls = 1 from rfl] at h
  simp at h

/-- C2 (amended). `max_iterations` is a hard upper bound, not an exact
count: whenever the model never returns an end_turn response, the loop
returns the sentinel "(max iterations reached)" after at most
`max_iterations` model calls, and after exactly `max_iterations` calls
when every response is a tool-request; an unrecognized stop reason ends
the loop immediately with the same sentinel. -/
theorem run_agent_loop_budget (oracle : List Message → ModelResponse)
    (exec : String → PyVal → String) (fuel : Nat) (st : LoopState)
    (hne : ∀ msgs, (oracle msgs).stop_reason ≠ "end_turn") :
    (run_agent_loop oracle exec fuel st).result = "(max iterations reached)" ∧
    (run_agent_loop oracle exec fuel st).calls ≤ st.calls + fuel ∧
    ((∀ msgs, (oracle msgs).stop_reason = "tool_use") →
      (run_agent_loop oracle exec fuel st).calls = st.calls + fuel) := by
  induction fuel generalizing st with
  | zero =>
    exact ⟨rfl, by simp [run_agent_loop, LoopState.finish],
      fun _ => by simp [run_agent_loop, LoopState.finish]⟩
  | succ n ih =>
    by_cases htool : (oracle st.messages).stop_reason = "tool_use"
    · rw [run_agent_loop_toolStep oracle exec st n htool]
      have h2 := ih (toolRoundState oracle exec st)
      have hc : (toolRoundState oracle exec st).calls = st.calls + 1 := rfl
      refine ⟨h2.1, ?_, fun hall => ?_⟩
      · have h3 := h2.2.1
        rw [hc] at h3
        omega
      · have h3 := h2.2.2 hall
        rw [hc] at h3
        omega
    · have hend := hne st.messages
      refine ⟨?_, ?_, fun hall => absurd (hall st.messages) htool⟩
      · simp [run_agent_loop, htool, hend, LoopState.finish]
      · simp only [run_agent_loop, htool, hend, if_neg, if_false, LoopState.finish]
        simp

/-- C2 witness: an always-tool_use model exhausts a budget of 3 in
exactly 3 calls and yields the sentinel. -/
theorem run_agent_loop_budget_witness :
    (run_agent_loop pingOracle nullExec 3 (initLoopState [])).result =
      "(max iterations reached)" ∧
    (run_agent_loop pingOracle nullExec 3 (initLoopState [])).calls = 3 := by
  have hne : ∀ msgs, (pingOracle msgs).stop_reason ≠ "end_turn" := by
    intro msgs h
    rw [show (pingOracle msgs).stop_reason = "tool_use" from rfl] at h
    exact absurd h (by decide)
  have h := run_agent_loop_budget pingOracle nullExec 3 (initLoopState []) hne
  exact ⟨h.1, by simpa using h.2.2 (fun _ => rfl)⟩

/-- C3. In a tool-request round the loop appends the assistant message
and then a single user message whose content is exactly one tool_result
fragment per tool_use block of the response, in block order, each
carrying that block's id (`toolRoundState` spells this out as a
filter/map over the response's blocks), and recursion continues from
that state. -/
theorem run_agent_loop_tool_round (oracle : List Message → ModelResponse)
    (exec : String → PyVal → String) (st : LoopState) (n : Nat)
    (h : (oracle st.messages).stop_reason = "tool_use") :
    run_agent_loop oracle exec (n + 1) st =
      run_agent_loop oracle exec n (toolRoundState oracle exec st) :=
  run_agent_loop_toolStep oracle exec st n h

/-- C3 witness: the tool-round equation at a concrete always-tool_use
oracle. -/
theorem run_agent_loop_tool_round_witness :
    run_agent_loop pingOracle nullExec 1 (initLoopState []) =
      run_agent_loop pingOracle nullExec 0
        (toolRoundState pingOracle nullExec (initLoopState [])) :=
  run_agent_loop_tool_round pingOracle nullExec (initLoopState []) 0 rfl

/-- Appending to a list and keeping the last 50 keeps the appended
element last (shared helper). -/
theorem takeLast_concat_getLast (l : List PyVal) (x : PyVal) :
    (takeLast (l ++ [x]) 50).getLast? = Option.some x := by
  unfold takeLast
  rw [List.drop_append_eq_append_drop]
  have h0 : (l ++ [x]).length - 50 - l.length = 0 := by
    simp only [List.length_append, List.length_singleton]
    omega
  rw [h0]
  simp [List.getLast?_concat]

/-- C9. The claim's "distinct tool names" is refuted: a round that
invokes read_post twice produces `tools_used = ["read_post",
"read_post"]` with the duplicate preserved, and the cycle summary
recorded by `_run_auto_cycle` stores that duplicated list verbatim. -/
theorem cycle_summary_duplicates_counterexample :
    (run_agent_loop dupOracle nullExec 20 (initLoopState [])).tools_used =
      ["read_post", "read_post"] ∧
    ¬ (run_agent_loop dupOracle nullExec 20 (initLoopState [])).tools_used.Nodup ∧
    (run_auto_cycle_record {} 1
      (run_agent_loop dupOracle nullExec 20 (initLoopState [])) "t").cycle_summaries =
      [.dict [("cycle", .int 1), ("timestamp", .str "t"),
              ("actions", .list [.str "read_post", .str "read_post"]),
              ("summary", .str "done")]] := by
  refine ⟨rfl, ?_, rfl⟩
  rw [show (run_agent_loop dupOracle nullExec 20 (initLoopState [])).tools_used =
    ["read_post", "read_post"] from rfl]
  decide

/-- C9 (amended). After a cycle the summary appended to memory (and
kept as the last entry after trimming to the most recent 50) holds the
cycle number, the ordered list of every tool name invoked that cycle —
duplicates preserved, not deduplicated — and the model's final text
truncated to at most 150 characters (or "no response" when the text is
empty). -/
theorem cycle_summary_record_spec (m : MemoryStore) (cycle : Int)
    (r : LoopResult) (now : String) :
    (run_auto_cycle_record m cycle r now).cycle_summaries.getLast? =
      Option.some (.dict [("cycle", .int cycle), ("timestamp", .str now),
        ("actions", .list (r.tools_used.map PyVal.str)),
        ("summary", .str (if r.result ≠ "" then strTake r.result 150
                          else "no response"))]) ∧
    (strTake r.result 150).data <+: r.result.data ∧
    (strTake r.result 150).length ≤ 150 := by
  refine ⟨?_, ?_, ?_⟩
  · exact takeLast_concat_getLast _ _
  · exact List.take_prefix _ _
  · show (r.result.data.take 150).length ≤ 150
    simp

/-- Lookup after overwrite at the same key (shared helper). -/
theorem dictGet_dictSet_self (d : List (String × PyVal)) (k : String) (v : PyVal) :
    dictGet (dictSet d k v) k = Option.some v := by
  induction d with
  | nil => simp [dictSet, dictGet]
  | cons e rest ih =>
    by_cases h : e.1 = k
    · simp [dictSet, dictGet, h]
    · simp [dictSet, dictGet, h, ih]

/-- Lookup after overwrite at another key (shared helper). -/
theorem dictGet_dictSet_ne (d : List (String × PyVal)) (k k' : String) (v : PyVal)
    (h : k' ≠ k) :
    dictGet (dictSet d k v) k' = dictGet d k' := by
  induction d with
  | nil => simp [dictSet, dictGet, Ne.symm h]
  | cons e rest ih =>
    by_cases he : e.1 = k
    · simp [dictSet, dictGet, he, Ne.symm h]
    · simp [dictSet, dictGet, he, ih]

/-- The value the evolution step leaves in one of the two evolvable
fields: the update's value when present and truthy, the prior value
otherwise. -/
def evolveFieldSpec (p updates : List (String × PyVal)) (key : String) :
    Option PyVal :=
  match dictGet updates key with
  | Option.some v => if v.truthy then Option.some v else dictGet p key
  | Option.none => dictGet p key

/-- C1. The additive-only containment fails on the code: applying the
parsed update object replaces the whole `interests` list with the
supplied value, so an accepted update whose list omits an existing
interest silently discards it — here prior interest "a" is gone after
the update `{"interests": ["x"]}`. -/
theorem evolve_personality_apply_drops_prior_interest :
    dictGet personalityFixture "interests" = Option.some (.list [.str "a"]) ∧
    dictGet (evolve_personality_apply personalityFixture
      [("interests", .list [.str "x"])]).1 "interests" =
      Option.some (.list [.str "x"]) ∧
    PyVal.str "a" ∉ [PyVal.str "x"] := by
  refine ⟨rfl, rfl, ?_⟩
  intro hmem
  simp at hmem

/-- C1 (amended). The evolution applier touches only the two declared
fields, but by wholesale replacement rather than union: for each of
`interests` and `opinions`, if the update object holds a truthy value
for the key the personality field becomes exactly that value (otherwise
it is unchanged), and every other field is unmodified; prior entries
survive only if the update's list repeats them, which the prompt
requests of the model but the code does not enforce. -/
theorem evolve_personality_apply_spec (p updates : List (String × PyVal)) :
    (∀ k, k ≠ "interests" → k ≠ "opinions" →
      dictGet (evolve_personality_apply p updates).1 k = dictGet p k) ∧
    dictGet (evolve_personality_apply p updates).1 "interests" =
      evolveFieldSpec p updates "interests" ∧
    dictGet (evolve_personality_apply p updates).1 "opinions" =
      evolveFieldSpec p updates "opinions" := by
  unfold evolve_personality_apply evolveFieldSpec
  simp only [List.foldl]
  refine ⟨fun k hk1 hk2 => ?_, ?_, ?_⟩ <;>
    rcases hI : dictGet updates "interests" with _ | vI <;>
      rcases hO : dictGet updates "opinions" with _ | vO <;>
        simp only [hI, hO] <;>
          first
            | rfl
            | (split_ifs <;>
                simp_all [dictGet_dictSet_self, dictGet_dictSet_ne])

/-- C1 witness: at the concrete fixture and update, the frame part of
the amended claim instantiated at the "name" field, plus the
replacement outcome for both evolvable fields. -/
theorem evolve_personality_apply_spec_witness :
    dictGet (evolve_personality_apply personalityFixture
      [("interests", .list [.str "x"])]).1 "name" =
      dictGet personalityFixture "name" ∧
    dictGet (evolve_personality_apply personalityFixture
      [("interests", .list [.str "x"])]).1 "opinions" =
      evolveFieldSpec personalityFixture [("interests", .list [.str "x"])] "opinions" := by
  have h := evolve_personality_apply_spec personalityFixture
    [("interests", .list [.str "x"])]
  exact ⟨h.1 "name" (by decide) (by decide), h.2.2⟩

/-- Bind in `Except` hits `.ok` exactly through an intermediate `.ok`
(shared helper). -/
theorem exceptBind_ok {ε α β : Type} {x : Except ε α} {f : α → Except ε β} {b : β} :
    (x >>= f) = .ok b ↔ ∃ a, x = .ok a ∧ f a = .ok b := by
  cases x <;> simp [Bind.bind, Except.bind]

/-- `_update_bot` never touches `posts_replied` (shared helper). -/
theorem update_bot_posts_replied (m : MemoryStore) (name : String)
    (topics : List String) (note : Option String) (now : String)
    (m2 : MemoryStore) (h : m.update_bot name topics note now = .ok m2) :
    m2.posts_replied = m.posts_replied := by
  unfold MemoryStore.update_bot at h
  split at h
  · rw [← Except.ok.inj h]
  · rw [exceptBind_ok] at h
    rcases h with ⟨b, _, hpure⟩
    rw [← Except.ok.inj hpure]

/-- The bot-update loop never touches `posts_replied` (shared helper). -/
theorem updateBotsLoop_posts_replied (names : List String) :
    ∀ (m m2 : MemoryStore) (topics : List String) (note : Option String)
      (now : String), updateBotsLoop m names topics note now = .ok m2 →
      m2.posts_replied = m.posts_replied := by
  induction names with
  | nil =>
    intro m m2 _ _ _ h
    rw [← Except.ok.inj h]
  | cons n rest ih =>
    intro m m2 topics note now h
    unfold updateBotsLoop at h
    rw [exceptBind_ok] at h
    rcases h with ⟨mm, hm, hrest⟩
    rw [ih mm m2 topics note now hrest,
      update_bot_posts_replied m n topics note now mm hm]

/-- Membership in the key list survives a dict update (shared helper). -/
theorem dictSetInt_mem (d : List (Int × PyVal)) (k0 : Int) (v : PyVal) (k : Int)
    (h : k ∈ d.map Prod.fst) : k ∈ (dictSetInt d k0 v).map Prod.fst := by
  induction d with
  | nil => simp at h
  | cons e rest ih =>
    rw [List.map_cons, List.mem_cons] at h
    show k ∈ List.map Prod.fst
      (if e.1 = k0 then (e.1, v) :: rest else e :: dictSetInt rest k0 v)
    by_cases he : e.1 = k0
    · rw [if_pos he, List.map_cons, List.mem_cons]
      exact h
    · rw [if_neg he, List.map_cons, List.mem_cons]
      rcases h with h | h
      · exact Or.inl h
      · exact Or.inr (ih h)

/-- `readPostTarget` never touches `posts_replied` (shared helper). -/
theorem readPostTarget_posts_replied (m : MemoryStore) (pid : PyVal)
    (now : String) (m2 : MemoryStore) (h : readPostTarget m pid now = .ok m2) :
    m2.posts_replied = m.posts_replied := by
  unfold readPostTarget at h
  split at h
  · rw [← Except.ok.inj h]
  · rw [exceptBind_ok] at h
    rcases h with ⟨kk, _, h⟩
    rw [← Except.ok.inj h]

/-- `replyTarget` never removes a `posts_replied` key (shared helper). -/
theorem replyTarget_mem (m : MemoryStore) (tid body : PyVal) (m2 : MemoryStore)
    (k : Int) (hmem : k ∈ m.posts_replied.map Prod.fst)
    (h : replyTarget m tid body = .ok m2) :
    k ∈ m2.posts_replied.map Prod.fst := by
  unfold replyTarget at h
  split at h
  · rw [← Except.ok.inj h]
    exact hmem
  · rw [exceptBind_ok] at h
    rcases h with ⟨ex, _, h⟩
    rw [exceptBind_ok] at h
    rcases h with ⟨kk, _, h⟩
    rw [← Except.ok.inj h]
    exact dictSetInt_mem m.posts_replied kk ex k hmem

/-- `record_action` never removes a `posts_replied` key (shared helper). -/
theorem record_action_posts_replied_mono (m : MemoryStore) (a : String)
    (d : List (String × PyVal)) (now : String) (m2 : MemoryStore) (k : Int)
    (hmem : k ∈ m.posts_replied.map Prod.fst)
    (h : m.record_action a d now = .ok m2) :
    k ∈ m2.posts_replied.map Prod.fst := by
  unfold MemoryStore.record_action at h
  split at h
  · -- read_post
    rw [exceptBind_ok] at h
    rcases h with ⟨m1, hX, h⟩
    rw [exceptBind_ok] at h
    rcases h with ⟨bots, _, h⟩
    rw [exceptBind_ok] at h
    rcases h with ⟨tp, _, h⟩
    rw [updateBotsLoop_posts_replied bots m1 m2 tp Option.none now h,
      readPostTarget_posts_replied m _ now m1 hX]
    exact hmem
  split at h
  · -- create_post
    dsimp only at h
    split at h
    · rw [← Except.ok.inj h]
      exact hmem
    · rw [← Except.ok.inj h]
      exact hmem
  split at h
  · -- reply_to_post / reply_to_reply
    rw [exceptBind_ok] at h
    rcases h with ⟨m1, hX, h⟩
    rw [exceptBind_ok] at h
    rcases h with ⟨bots, _, h⟩
    rw [exceptBind_ok] at h
    rcases h with ⟨tp, _, h⟩
    have hm1 : k ∈ m1.posts_replied.map Prod.fst :=
      replyTarget_mem m _ _ m1 k hmem hX
    split at h
    · rw [← Except.ok.inj h]
      exact hm1
    · rw [exceptBind_ok] at h
      rcases h with ⟨b60, _, h⟩
      rw [updateBotsLoop_posts_replied bots m1 m2 tp _ now h]
      exact hm1
  split at h
  · -- vote
    dsimp only at h
    split at h
    · rw [← Except.ok.inj h]
      exact hmem
    · rw [← Except.ok.inj h]
      exact hmem
  split at h
  · -- check_notifications
    rw [exceptBind_ok] at h
    rcases h with ⟨bots, _, h⟩
    rw [updateBotsLoop_posts_replied bots m m2 [] Option.none now h]
    exact hmem
  · -- unrecognized action type
    rw [← Except.ok.inj h]
    exact hmem

/-- C6. Identifier dedup is permanent: a key of `posts_replied` survives
every successful `record_action` (of any action type) — after which
`already_replied` answers true for it — while `add_cycle_summary` and
`_update_bot` leave `posts_replied` untouched entirely. -/
theorem posts_replied_never_removed (m : MemoryStore) :
    (∀ m2 a d now k, k ∈ m.posts_replied.map Prod.fst →
      m.record_action a d now = .ok m2 →
      m2.already_replied (.int k) = .ok true) ∧
    (∀ c acts s now,
      (m.add_cycle_summary c acts s now).posts_replied = m.posts_replied) ∧
    (∀ name topics note now m2, m.update_bot name topics note now = .ok m2 →
      m2.posts_replied = m.posts_replied) := by
  refine ⟨?_, fun _ _ _ _ => rfl,
    fun name t nt now m2 h => update_bot_posts_replied m name t nt now m2 h⟩
  intro m2 a d now k hmem hrec
  have h2 := record_action_posts_replied_mono m a d now m2 k hmem hrec
  have hany : m2.posts_replied.any (fun e => decide (e.1 = k)) = true := by
    rw [List.any_eq_true]
    rcases List.mem_map.mp h2 with ⟨e, he, hek⟩
    exact ⟨e, he, by simp [hek]⟩
  simp [MemoryStore.already_replied, pyToInt, hany, pure, Except.pure, bind, Except.bind]

/-- C6 witness: a store that already replied to post 5 still reports so
after recording an unrecognized action (which leaves it unchanged), and
`add_cycle_summary` leaves `posts_replied` as is. -/
theorem posts_replied_never_removed_witness :
    ({ posts_replied := [((5 : Int), PyVal.str "x")] } : MemoryStore).already_replied
      (.int 5) = .ok true ∧
    (({ posts_replied := [((5 : Int), PyVal.str "x")] } : MemoryStore).add_cycle_summary
      1 [] "s" "t").posts_replied = [((5 : Int), PyVal.str "x")] := by
  have h := posts_replied_never_removed
    { posts_replied := [((5 : Int), PyVal.str "x")] }
  exact ⟨h.1 _ "noop" [] "t" 5 (by simp) rfl, h.2.1 1 [] "s" "t"⟩

/-- `pyEq` against a string value holds exactly for that string (shared
helper). -/
theorem pyEq_str_iff (v : PyVal) (s : String) :
    pyEq v (.str s) = true ↔ v = .str s := by
  cases v <;> simp [pyEq]

/-- An entry of an updated vote dict carries an old key or the new key
(shared helper). -/
theorem dictSetPy_keys (d : List (PyVal × PyVal)) (k v : PyVal) :
    ∀ b ∈ dictSetPy d k v, b.1 ∈ d.map Prod.fst ∨ b.1 = k := by
  induction d with
  | nil =>
    intro b hb
    rcases List.mem_singleton.mp hb with rfl
    exact Or.inr rfl
  | cons e rest ih =>
    intro b hb
    show b.1 ∈ (e :: rest).map Prod.fst ∨ b.1 = k
    rw [show dictSetPy (e :: rest) k v =
      (if pyEq e.1 k then (e.1, v) :: rest else e :: dictSetPy rest k v) from rfl] at hb
    by_cases he : pyEq e.1 k = true
    · rw [if_pos he, List.mem_cons] at hb
      rcases hb with rfl | hb
      · exact Or.inl (by simp)
      · exact Or.inl (by simp [List.mem_map]; exact Or.inr ⟨b.2, hb⟩)
    · rw [if_neg he, List.mem_cons] at hb
      rcases hb with rfl | hb
      · exact Or.inl (by simp)
      · rcases ih b hb with hmem | hkey
        · exact Or.inl (by simp [List.mem_cons]; right; simpa using hmem)
        · exact Or.inr hkey

/-- Keys stay pairwise-distinct under a vote-dict update (shared
helper). -/
theorem dictSetPy_wf (d : List (PyVal × PyVal)) (s : String) (v : PyVal)
    (hwf : PyDictWF d) : PyDictWF (dictSetPy d (.str s) v) := by
  induction d with
  | nil =>
    exact List.pairwise_cons.mpr ⟨fun e he => absurd he (List.not_mem_nil e), .nil⟩
  | cons e rest ih =>
    rcases List.pairwise_cons.mp hwf with ⟨hhead, htail⟩
    show PyDictWF (if pyEq e.1 (.str s) then (e.1, v) :: rest
      else e :: dictSetPy rest (.str s) v)
    by_cases he : pyEq e.1 (.str s) = true
    · rw [if_pos he]
      exact List.pairwise_cons.mpr ⟨hhead, htail⟩
    · rw [if_neg he]
      refine List.pairwise_cons.mpr ⟨?_, ih htail⟩
      intro b hb
      rcases dictSetPy_keys rest (.str s) v b hb with hmem | hkey
      · rcases List.mem_map.mp hmem with ⟨a, ha, hak⟩
        rw [← hak]
        exact hhead a ha
      · rw [hkey]
        exact Bool.not_eq_true _ ▸ he

/-- After an update at a string key, the entries matching that key are
exactly one, holding the new value (shared helper). -/
theorem dictSetPy_filter_str (d : List (PyVal × PyVal)) (s : String) (v : PyVal)
    (hwf : PyDictWF d) :
    ((dictSetPy d (.str s) v).filter (fun e => pyEq e.1 (.str s))).map Prod.snd
      = [v] := by
  induction d with
  | nil => simp [dictSetPy, List.filter, pyEq]
  | cons e rest ih =>
    rcases List.pairwise_cons.mp hwf with ⟨hhead, htail⟩
    show ((if pyEq e.1 (.str s) then (e.1, v) :: rest
      else e :: dictSetPy rest (.str s) v).filter
        (fun e => pyEq e.1 (.str s))).map Prod.snd = [v]
    by_cases he : pyEq e.1 (.str s) = true
    · rw [if_pos he, List.filter_cons_of_pos (by simpa using he)]
      have hnil : rest.filter (fun e => pyEq e.1 (.str s)) = [] := by
        rw [List.filter_eq_nil_iff]
        intro a ha
        have hes : e.1 = .str s := (pyEq_str_iff e.1 s).mp he
        have hfa : pyEq e.1 a.1 = false := hhead a ha
        rw [hes] at hfa
        intro hcontra
        have : a.1 = .str s := (pyEq_str_iff a.1 s).mp (by simpa using hcontra)
        rw [this] at hfa
        have : pyEq (PyVal.str s) (PyVal.str s) = true := by simp [pyEq]
        rw [this] at hfa
        cases hfa
      rw [hnil]
      rfl
    · rw [if_neg he, List.filter_cons_of_neg (by simpa using he)]
      exact ih htail

/-- The vote branch of `record_action` with a non-empty key overwrites
`votes_cast["key"]` in place and touches nothing else (shared
helper). -/
theorem record_vote_eq (m : MemoryStore) (key : String) (v : PyVal)
    (now : String) (hk : key ≠ "") :
    m.record_action "vote" [("key", .str key), ("value", v)] now =
      .ok { m with votes_cast := dictSetPy m.votes_cast (.str key) v } := by
  unfold MemoryStore.record_action
  rw [if_neg (by decide), if_neg (by decide), if_neg (by decide), if_pos rfl]
  dsimp only
  have ht : (dictGetD [("key", PyVal.str key), ("value", v)] "key"
      (PyVal.str "")).truthy = true := by
    simp [dictGetD, dictGet, PyVal.truthy, hk]
  rw [if_pos ht]
  rfl

/-- C8. Casting +1 then −1 on the same non-empty key leaves exactly one
`votes_cast` entry matching that key, holding the latest value −1:
re-voting overwrites in place rather than appending. -/
theorem record_vote_revote (m m1 m2 : MemoryStore) (key now1 now2 : String)
    (hk : key ≠ "")
    (hwf : PyDictWF m.votes_cast)
    (h1 : m.record_action "vote" [("key", .str key), ("value", .int 1)] now1
      = .ok m1)
    (h2 : m1.record_action "vote" [("key", .str key), ("value", .int (-1))] now2
      = .ok m2) :
    (m2.votes_cast.filter (fun e => pyEq e.1 (.str key))).map Prod.snd
      = [.int (-1)] := by
  rw [record_vote_eq m key (.int 1) now1 hk] at h1
  have hm1 := Except.ok.inj h1
  rw [← hm1] at h2
  rw [record_vote_eq _ key (.int (-1)) now2 hk] at h2
  have hm2 := Except.ok.inj h2
  rw [← hm2]
  exact dictSetPy_filter_str _ key (.int (-1))
    (dictSetPy_wf m.votes_cast key (.int 1) hwf)

/-- C8 witness: on the empty store, voting +1 then −1 on "post:1" leaves
the single entry ("post:1", −1). -/
theorem record_vote_revote_witness :
    (({ votes_cast := [(PyVal.str "post:1", PyVal.int (-1))] }
        : MemoryStore).votes_cast.filter
      (fun e => pyEq e.1 (.str "post:1"))).map Prod.snd = [.int (-1)] :=
  record_vote_revote {} { votes_cast := [(.str "post:1", .int 1)] }
    { votes_cast := [(.str "post:1", .int (-1))] } "post:1" "t1" "t2"
    (by decide) List.Pairwise.nil rfl rfl

end AgentBook
